import Mathlib

/-!
Verification of the sentiment-aggregation and advice-decision core of the
financial-sentiment pipeline (src/app.py `compute_advice_from_df`,
src/model.py `compute_summary`, and the shared four-branch advice tree).

A pandas DataFrame of SentimentRecords is modelled at two levels.  A
`RawSentimentFrame` is the frame exactly as loaded from storage: a row
count together with the optional `sentiment_label` and `sentiment_score`
columns, where a score cell can be a numeric value, a missing value
(NaN/None), or a non-numeric value such as a string — the last makes the
pandas column object-typed, and `Series.mean()` then raises TypeError
instead of skipping the cell.  A `SentimentFrame` is the restriction to
numeric score columns (every cell numeric or missing); `toRawFrame` embeds
it into the raw level, and the `_numeric` agreement theorems show the two
models of each aggregation function coincide there.  A column absent from
the frame is `none`.  A float NaN result is modelled as
`none : Option ℚ`.  A Python KeyError or TypeError that escapes a function
is modelled as `Except.error`.
-/

/-- One pandas DataFrame of sentiment records whose score column is
numeric (float dtype): the number of rows and the two relevant columns.
`labelCol = none` / `scoreCol = none` means the column is absent from the
frame; a `none` cell inside a present column is a missing value (NaN).
Frames whose score column may also hold non-numeric cells are
`RawSentimentFrame` below. -/
structure SentimentFrame where
  nrows : Nat
  labelCol : Option (List (Option String))
  scoreCol : Option (List (Option ℚ))

/-- The summary dictionary returned by the aggregation functions.
`avg_sentiment = none` models a float NaN.  `counts` is the label-count
mapping, total on strings (absent keys map to 0). -/
structure Summary where
  avg_sentiment : Option ℚ
  positive : ℚ
  neutral : ℚ
  negative : ℚ
  counts : String → Nat
  advice : String

/-- Pandas `.astype(str)`: a missing cell (NaN) becomes the literal string
"nan"; a present string is kept as is. -/
def cellToStr : Option String → String
  | none => "nan"
  | some s => s

/-- Python `str.lower()` (pandas `.str.lower()`): lower-case every
character of the string. -/
def pyLower (s : String) : String := ⟨s.data.map Char.toLower⟩

/-- Pandas `Series.mean()` with its default `skipna=True` on a numeric
(float-dtype) series: missing values (NaN) are dropped from numerator and
denominator; the mean of an empty or all-missing series is NaN (`none`).
This is the numeric-column case only — on an object-dtype series holding
a non-numeric cell, `mean()` raises TypeError instead of skipping it,
which `rawSeriesMean` below models; `rawSeriesMean_numeric` proves the two
agree on numeric series. -/
def seriesMean (xs : List (Option ℚ)) : Option ℚ :=
  let vals := xs.filterMap id
  if vals.length = 0 then none else some (vals.sum / (vals.length : ℚ))

/-- Python `round(x, 3)`: round to 3 decimal digits, ties to the even
multiple (banker's rounding). -/
def pyround3 (q : ℚ) : ℚ :=
  let scaled := q * 1000
  let fl : ℤ := Rat.floor scaled
  let frac := scaled - (fl : ℚ)
  let r : ℤ :=
    if frac < 1/2 then fl
    else if 1/2 < frac then fl + 1
    else if fl % 2 = 0 then fl else fl + 1
  (r : ℚ) / 1000

/-- The four-branch heuristic advice tree, written identically in
src/app.py lines 58-65 and src/model.py lines 150-157. -/
def decide_advice (positive neutral negative : ℚ) : String :=
  if positive ≥ 25 ∧ neutral ≥ 25 then "GOOD TIME TO BUY STOCKS"
  else if 45 ≤ neutral ∧ neutral ≤ 50 then "NORMAL DAY TO DO TRANSACTIONS"
  else if negative > 40 then "NOT GOOD TO INVEST"
  else "MIXED SIGNALS — USE CAUTION"

/-- The sentinel summary returned by `compute_advice_from_df` for an empty
frame (src/app.py lines 37-44). -/
def noDataSummary : Summary :=
  { avg_sentiment := some 0
    positive := 0
    neutral := 0
    negative := 0
    counts := fun _ => 0
    advice := "NO DATA" }

/-- The label series used by `compute_advice_from_df`:
`df.get("sentiment_label", empty).astype(str).str.lower()`.  An absent
column yields the empty series; a NaN cell becomes the string "nan"; every
entry is lower-cased. -/
def lowered_labels (df : SentimentFrame) : List String :=
  (df.labelCol.getD []).map fun c => pyLower (cellToStr c)

/-- Canonical-label percentage: `(counts.get(s, 0) / total) * 100` when
`total > 0`, else `0.0`, where `counts` comes from `value_counts()` on the
label series and `total = sum(counts.values())` is its length. -/
def canonPct (labels : List String) (s : String) : ℚ :=
  if 0 < labels.length then ((labels.count s : ℚ) / (labels.length : ℚ)) * 100 else 0

/-- src/app.py `compute_advice_from_df` (lines 34-74).  Empty frames get
the NO DATA sentinel; otherwise counts are keyed by the lower-cased string
form of each label cell, the mean is the pandas skipna mean (0.0 when the
score column is absent), advice is decided on the unrounded percentages,
and the three canonical percentages are rounded to 3 decimals on return. -/
def compute_advice_from_df (df : SentimentFrame) : Summary :=
  if df.nrows = 0 then noDataSummary
  else
    let labels := lowered_labels df
    let counts : String → Nat := fun s => labels.count s
    let avg_sentiment : Option ℚ :=
      match df.scoreCol with
      | some xs => if 0 < df.nrows then seriesMean xs else some 0
      | none => some 0
    let positive := canonPct labels "positive"
    let neutral := canonPct labels "neutral"
    let negative := canonPct labels "negative"
    { avg_sentiment := avg_sentiment
      positive := pyround3 positive
      neutral := pyround3 neutral
      negative := pyround3 negative
      counts := counts
      advice := decide_advice positive neutral negative }

/-- src/model.py `compute_summary` (lines 139-168).  `df["sentiment_label"]`
raises KeyError when the column is absent; `value_counts()` drops missing
labels and does not lower-case; `df["sentiment_score"].mean()` is only
evaluated when `len(df) > 0` and raises KeyError when that column is
absent; percentages are returned unrounded; there is no empty-frame
guard. -/
def compute_summary (df : SentimentFrame) : Except String Summary :=
  match df.labelCol with
  | none => Except.error "KeyError: sentiment_label"
  | some labelCells =>
    let labels := labelCells.filterMap id
    let label_counts : String → Nat := fun s => labels.count s
    if 0 < df.nrows ∧ df.scoreCol = none then Except.error "KeyError: sentiment_score"
    else
      let avg_sentiment : Option ℚ :=
        if 0 < df.nrows then seriesMean (df.scoreCol.getD []) else some 0
      let positive := canonPct labels "positive"
      let neutral := canonPct labels "neutral"
      let negative := canonPct labels "negative"
      Except.ok
        { avg_sentiment := avg_sentiment
          positive := positive
          neutral := neutral
          negative := negative
          counts := label_counts
          advice := decide_advice positive neutral negative }

/-- One cell of the `sentiment_score` column exactly as loaded from
storage.  Unlike the numeric cells of `SentimentFrame`, a raw cell can
also be a non-numeric value (for example a string), which makes the
pandas column object-typed. -/
inductive ScoreCell where
  | num (q : ℚ)
  | na
  | nonNumeric (s : String)
deriving DecidableEq

/-- Whether a raw score cell is a non-numeric value. -/
def ScoreCell.isNonNumeric : ScoreCell → Bool
  | .nonNumeric _ => true
  | _ => false

/-- The numeric value of a raw score cell, if it has one. -/
def ScoreCell.toRat : ScoreCell → Option ℚ
  | .num q => some q
  | _ => none

/-- A frame exactly as loaded from storage: like `SentimentFrame`, but the
score column may also hold non-numeric cells. -/
structure RawSentimentFrame where
  nrows : Nat
  labelCol : Option (List (Option String))
  scoreCol : Option (List ScoreCell)

/-- Pandas `Series.mean()` on a raw score column: a non-numeric cell makes
the column object-typed and `mean()` raises TypeError (it skips only
missing NaN/None values, never non-numeric ones); otherwise missing
values are dropped and an empty or all-missing column gives NaN. -/
def rawSeriesMean (xs : List ScoreCell) : Except String (Option ℚ) :=
  if xs.any ScoreCell.isNonNumeric then
    Except.error "TypeError: Could not convert string to numeric"
  else
    let vals := xs.filterMap ScoreCell.toRat
    if vals.length = 0 then Except.ok none
    else Except.ok (some (vals.sum / (vals.length : ℚ)))

/-- src/app.py `compute_advice_from_df` over a raw frame.  The same code
as `compute_advice_from_df`, but the mean at line 51 runs on the raw score
column, so its TypeError aborts the call before the percentages and advice
are computed (when the frame is empty the function returns at line 36
without touching the scores, and when the column is absent the mean is
never evaluated).  `compute_advice_from_raw_numeric` proves agreement with
`compute_advice_from_df` whenever every score cell is numeric or
missing. -/
def compute_advice_from_raw (df : RawSentimentFrame) : Except String Summary :=
  if df.nrows = 0 then Except.ok noDataSummary
  else
    let labels := (df.labelCol.getD []).map fun c => pyLower (cellToStr c)
    let counts : String → Nat := fun s => labels.count s
    let meanResult : Except String (Option ℚ) :=
      match df.scoreCol with
      | some xs => if 0 < df.nrows then rawSeriesMean xs else Except.ok (some 0)
      | none => Except.ok (some 0)
    meanResult.map fun avg_sentiment =>
      let positive := canonPct labels "positive"
      let neutral := canonPct labels "neutral"
      let negative := canonPct labels "negative"
      { avg_sentiment := avg_sentiment
        positive := pyround3 positive
        neutral := pyround3 neutral
        negative := pyround3 negative
        counts := counts
        advice := decide_advice positive neutral negative }

/-- src/model.py `compute_summary` over a raw frame: KeyError on a missing
column as in `compute_summary`, and additionally the TypeError of the mean
on a non-numeric score column (the mean is evaluated only when
`len(df) > 0`).  `compute_summary_raw_numeric` proves agreement with
`compute_summary` on numeric frames. -/
def compute_summary_raw (df : RawSentimentFrame) : Except String Summary :=
  match df.labelCol with
  | none => Except.error "KeyError: sentiment_label"
  | some labelCells =>
    let labels := labelCells.filterMap id
    let label_counts : String → Nat := fun s => labels.count s
    if 0 < df.nrows ∧ df.scoreCol = none then Except.error "KeyError: sentiment_score"
    else
      let meanResult : Except String (Option ℚ) :=
        if 0 < df.nrows then rawSeriesMean (df.scoreCol.getD []) else Except.ok (some 0)
      meanResult.map fun avg_sentiment =>
        let positive := canonPct labels "positive"
        let neutral := canonPct labels "neutral"
        let negative := canonPct labels "negative"
        { avg_sentiment := avg_sentiment
          positive := positive
          neutral := neutral
          negative := negative
          counts := label_counts
          advice := decide_advice positive neutral negative }

/-- A numeric-or-missing score value as a raw cell. -/
def cellOfOpt : Option ℚ → ScoreCell
  | some q => ScoreCell.num q
  | none => ScoreCell.na

/-- A numeric frame viewed as a raw frame. -/
def toRawFrame (df : SentimentFrame) : RawSentimentFrame :=
  ⟨df.nrows, df.labelCol, df.scoreCol.map (List.map cellOfOpt)⟩

/-- `Rat.floor` agrees with the order-theoretic floor; this lets concrete
`pyround3` values be computed with `norm_num`. -/
theorem rat_floor_eq_intFloor (q : ℚ) : Rat.floor q = ⌊q⌋ := by
  rw [Rat.floor_def', Rat.floor_def]

/-- The nearest-multiple property of banker's rounding: rounding to 3
decimals moves a rational by at most 1/2000, hence at most 1/1000. -/
theorem pyround3_abs_sub_le (q : ℚ) : |pyround3 q - q| ≤ 1/1000 := by
  have hfl : Rat.floor (q * 1000) = ⌊q * 1000⌋ := rat_floor_eq_intFloor _
  have h1 : ((⌊q * 1000⌋ : ℤ) : ℚ) ≤ q * 1000 := Int.floor_le _
  have h2 : q * 1000 < (⌊q * 1000⌋ : ℤ) + 1 := Int.lt_floor_add_one _
  simp only [pyround3, hfl]
  split_ifs with hlt hgt heven <;> rw [abs_le] <;> constructor <;>
    push_cast <;> linarith

example : decide_advice 30 30 40 = "GOOD TIME TO BUY STOCKS" := by
  simp only [decide_advice]; norm_num
example : decide_advice 10 47 43 = "NORMAL DAY TO DO TRANSACTIONS" := by
  simp only [decide_advice]; norm_num
example : pyround3 (100/3) = 33333/1000 := by
  simp only [pyround3, rat_floor_eq_intFloor]; norm_num
example : pyround3 50 = 50 := by
  simp only [pyround3, rat_floor_eq_intFloor]; norm_num

/-- The values of a `value_counts()` dictionary sum to the length of the
underlying series: `sum(counts.values()) = total_records`. -/
theorem sum_toFinset_count_eq_length {α : Type*} [DecidableEq α] (l : List α) :
    ∑ a in l.toFinset, l.count a = l.length := by
  simpa [Multiset.coe_count] using Multiset.toFinset_sum_count_eq (l : Multiset α)

/-- Rule 1 fires exactly when both thresholds are met. -/
theorem decide_advice_eq_good_iff (p n g : ℚ) :
    decide_advice p n g = "GOOD TIME TO BUY STOCKS" ↔ p ≥ 25 ∧ n ≥ 25 := by
  unfold decide_advice
  split_ifs with h1 h2 h3 <;> simp_all

/-- Rule 2 fires exactly when rule 1 fails and neutral lies in the closed
interval [45, 50]. -/
theorem decide_advice_eq_normal_iff (p n g : ℚ) :
    decide_advice p n g = "NORMAL DAY TO DO TRANSACTIONS" ↔
      ¬(p ≥ 25 ∧ n ≥ 25) ∧ 45 ≤ n ∧ n ≤ 50 := by
  unfold decide_advice
  split_ifs with h1 h2 h3 <;> simp_all

/-- Rule 3 fires exactly when rules 1 and 2 fail and negative exceeds 40. -/
theorem decide_advice_eq_bad_iff (p n g : ℚ) :
    decide_advice p n g = "NOT GOOD TO INVEST" ↔
      ¬(p ≥ 25 ∧ n ≥ 25) ∧ ¬(45 ≤ n ∧ n ≤ 50) ∧ g > 40 := by
  unfold decide_advice
  split_ifs with h1 h2 h3 <;> simp_all

/-- Rule 4 is the default branch. -/
theorem decide_advice_eq_mixed_iff (p n g : ℚ) :
    decide_advice p n g = "MIXED SIGNALS — USE CAUTION" ↔
      ¬(p ≥ 25 ∧ n ≥ 25) ∧ ¬(45 ≤ n ∧ n ≤ 50) ∧ ¬(g > 40) := by
  unfold decide_advice
  split_ifs with h1 h2 h3 <;> simp_all

/-- The four-branch decision tree never produces the "NO DATA" sentinel. -/
theorem decide_advice_ne_no_data (p n g : ℚ) : decide_advice p n g ≠ "NO DATA" := by
  unfold decide_advice
  split_ifs <;> simp

/-- C1 (amended): for an empty input collection (`nrows = 0`),
`compute_advice_from_df` returns the Summary with `avg_sentiment` 0.0, all
three percentages 0.0, an empty counts mapping and advice exactly
"NO DATA", and "NO DATA" is never produced by the four-branch decision
tree; `compute_summary`, by contrast, has no empty-input guard (see the
counterexample). -/
theorem c1_empty_collection_no_data (df : SentimentFrame) (h : df.nrows = 0) :
    compute_advice_from_df df = noDataSummary ∧
    noDataSummary.avg_sentiment = some 0 ∧
    noDataSummary.positive = 0 ∧ noDataSummary.neutral = 0 ∧ noDataSummary.negative = 0 ∧
    (∀ s, noDataSummary.counts s = 0) ∧
    noDataSummary.advice = "NO DATA" ∧
    ∀ p n g : ℚ, decide_advice p n g ≠ "NO DATA" := by
  refine ⟨by simp [compute_advice_from_df, h], rfl, rfl, rfl, rfl, fun _ => rfl, rfl,
    decide_advice_ne_no_data⟩

/-- C1 witness: the empty frame evaluates to the NO DATA sentinel. -/
theorem c1_witness :
    compute_advice_from_df ⟨0, some [], some []⟩ = noDataSummary :=
  (c1_empty_collection_no_data ⟨0, some [], some []⟩ rfl).1

/-- C1 counterexample: `compute_summary` on an empty frame (both columns
present, zero rows) consults the decision tree and returns
"MIXED SIGNALS — USE CAUTION", not the "NO DATA" sentinel the claim
requires of the aggregation function. -/
theorem c1_counterexample :
    (compute_summary ⟨0, some [], some []⟩).map Summary.advice
      = Except.ok "MIXED SIGNALS — USE CAUTION" ∧
    "MIXED SIGNALS — USE CAUTION" ≠ "NO DATA" := by
  constructor
  · norm_num [compute_summary, canonPct, decide_advice, seriesMean, Except.map]
  · decide

/-- C2: the advice string is the first-match evaluation, in order, of the
four rules (rule 1: positive ≥ 25 and neutral ≥ 25; rule 2: neutral in the
closed interval [45, 50]; rule 3: negative > 40; rule 4: default), the two
quoted evaluations hold, and for every non-empty frame the advice field of
`compute_advice_from_df` is the tree evaluated on the unrounded
percentages. -/
theorem c2_first_match_advice (p n g : ℚ) (df : SentimentFrame) (h0 : df.nrows ≠ 0) :
    (decide_advice p n g = "GOOD TIME TO BUY STOCKS" ↔ p ≥ 25 ∧ n ≥ 25) ∧
    (decide_advice p n g = "NORMAL DAY TO DO TRANSACTIONS" ↔
      ¬(p ≥ 25 ∧ n ≥ 25) ∧ 45 ≤ n ∧ n ≤ 50) ∧
    (decide_advice p n g = "NOT GOOD TO INVEST" ↔
      ¬(p ≥ 25 ∧ n ≥ 25) ∧ ¬(45 ≤ n ∧ n ≤ 50) ∧ g > 40) ∧
    (decide_advice p n g = "MIXED SIGNALS — USE CAUTION" ↔
      ¬(p ≥ 25 ∧ n ≥ 25) ∧ ¬(45 ≤ n ∧ n ≤ 50) ∧ ¬(g > 40)) ∧
    decide_advice 30 30 40 = "GOOD TIME TO BUY STOCKS" ∧
    decide_advice 10 47 43 = "NORMAL DAY TO DO TRANSACTIONS" ∧
    (compute_advice_from_df df).advice =
      decide_advice (canonPct (lowered_labels df) "positive")
        (canonPct (lowered_labels df) "neutral")
        (canonPct (lowered_labels df) "negative") := by
  refine ⟨decide_advice_eq_good_iff p n g, decide_advice_eq_normal_iff p n g,
    decide_advice_eq_bad_iff p n g, decide_advice_eq_mixed_iff p n g,
    ?_, ?_, by simp [compute_advice_from_df, h0]⟩
  · simp only [decide_advice]; norm_num
  · simp only [decide_advice]; norm_num

/-- C2 witness: the two concrete evaluations quoted in the claim. -/
theorem c2_witness :
    decide_advice 30 30 40 = "GOOD TIME TO BUY STOCKS" ∧
    decide_advice 10 47 43 = "NORMAL DAY TO DO TRANSACTIONS" :=
  ⟨(c2_first_match_advice 30 30 40 ⟨1, some [some "positive"], some [some 1]⟩
      (by decide)).2.2.2.2.1,
   (c2_first_match_advice 30 30 40 ⟨1, some [some "positive"], some [some 1]⟩
      (by decide)).2.2.2.2.2.1⟩

/-- C9: the aggregation functions and the advice decision are
deterministic, state-free functions of their input alone: equal inputs
give equal Summaries and equal percentage triples give equal advice. -/
theorem c9_pure_deterministic (df df' : SentimentFrame) (p n g p' n' g' : ℚ)
    (hdf : df = df') (hp : p = p') (hn : n = n') (hg : g = g') :
    compute_advice_from_df df = compute_advice_from_df df' ∧
    compute_summary df = compute_summary df' ∧
    decide_advice p n g = decide_advice p' n' g' := by
  subst hdf; subst hp; subst hn; subst hg
  exact ⟨rfl, rfl, rfl⟩

/-- C9 witness: determinism at a concrete one-row frame and a concrete
percentage triple. -/
theorem c9_witness :
    compute_advice_from_df ⟨1, some [some "positive"], some [some 1]⟩
        = compute_advice_from_df ⟨1, some [some "positive"], some [some 1]⟩ ∧
    decide_advice 30 30 40 = decide_advice 30 30 40 :=
  ⟨(c9_pure_deterministic ⟨1, some [some "positive"], some [some 1]⟩
      ⟨1, some [some "positive"], some [some 1]⟩ 30 30 40 30 30 40 rfl rfl rfl rfl).1,
   (c9_pure_deterministic ⟨1, some [some "positive"], some [some 1]⟩
      ⟨1, some [some "positive"], some [some 1]⟩ 30 30 40 30 30 40 rfl rfl rfl rfl).2.2⟩

/-- When both columns are present, `compute_summary` succeeds and its
fields are exactly the value_counts (over non-missing, verbatim labels),
the unrounded percentages, the guarded mean, and the tree verdict. -/
theorem compute_summary_eq_ok (df : SentimentFrame) (cells : List (Option String))
    (xs : List (Option ℚ)) (hl : df.labelCol = some cells) (hs : df.scoreCol = some xs) :
    compute_summary df = Except.ok
      { avg_sentiment := if 0 < df.nrows then seriesMean xs else some 0
        positive := canonPct (cells.filterMap id) "positive"
        neutral := canonPct (cells.filterMap id) "neutral"
        negative := canonPct (cells.filterMap id) "negative"
        counts := fun s => (cells.filterMap id).count s
        advice := decide_advice (canonPct (cells.filterMap id) "positive")
          (canonPct (cells.filterMap id) "neutral")
          (canonPct (cells.filterMap id) "negative") } := by
  simp [compute_summary, hl, hs]

/-- Every canonical percentage is within 0.001 of the exact formula
`100 * counts[label] / total_records` (before any rounding it is exact;
for the empty series both sides are 0). -/
theorem canonPct_abs_sub_formula_le (l : List String) (s : String) :
    |canonPct l s - 100 * (l.count s : ℚ) / (l.length : ℚ)| ≤ 1/1000 := by
  rcases Nat.eq_zero_or_pos l.length with hz | hp
  · have hnil : l = [] := List.length_eq_zero.mp hz
    subst hnil
    simp [canonPct]
  · rw [canonPct, if_pos hp]
    have h : ((l.count s : ℚ) / (l.length : ℚ)) * 100
        = 100 * (l.count s : ℚ) / (l.length : ℚ) := by ring
    rw [h, sub_self, abs_zero]
    norm_num

/-- C3 (amended): `compute_advice_from_df` is case-insensitive — counts are
keyed by the lower-cased string form of the observed label, so "Positive",
"POSITIVE" and "positive" all land in counts["positive"] (= 3 on the
three-variant frame).  `compute_summary` is not: it keys counts by the
verbatim label, so each variant gets its own bucket of 1. -/
theorem c3_lowercase_buckets (df : SentimentFrame) (cells : List (Option String))
    (h0 : df.nrows ≠ 0) (hl : df.labelCol = some cells) :
    (∀ s, (compute_advice_from_df df).counts s
        = (cells.map fun c => pyLower (cellToStr c)).count s) ∧
    (compute_advice_from_df
        ⟨3, some [some "Positive", some "POSITIVE", some "positive"],
          some [some 0, some 0, some 0]⟩).counts "positive" = 3 ∧
    ((compute_summary
        ⟨3, some [some "Positive", some "POSITIVE", some "positive"],
          some [some 0, some 0, some 0]⟩).map fun s => s.counts "positive")
      = Except.ok 1 ∧
    ((compute_summary
        ⟨3, some [some "Positive", some "POSITIVE", some "positive"],
          some [some 0, some 0, some 0]⟩).map fun s => s.counts "Positive")
      = Except.ok 1 := by
  refine ⟨?_, by decide, ?_, ?_⟩
  · intro s
    simp [compute_advice_from_df, h0, lowered_labels, hl]
  · rw [compute_summary_eq_ok _
      [some "Positive", some "POSITIVE", some "positive"] [some 0, some 0, some 0] rfl rfl]
    simp only [Except.map, Except.ok.injEq]
    decide
  · rw [compute_summary_eq_ok _
      [some "Positive", some "POSITIVE", some "positive"] [some 0, some 0, some 0] rfl rfl]
    simp only [Except.map, Except.ok.injEq]
    decide

/-- C3 witness: the three case variants aggregate into one bucket of 3 in
`compute_advice_from_df`. -/
theorem c3_witness :
    (compute_advice_from_df
        ⟨3, some [some "Positive", some "POSITIVE", some "positive"],
          some [some 0, some 0, some 0]⟩).counts "positive" = 3 :=
  (c3_lowercase_buckets
      ⟨3, some [some "Positive", some "POSITIVE", some "positive"],
        some [some 0, some 0, some 0]⟩
      [some "Positive", some "POSITIVE", some "positive"] (by decide) rfl).2.1

/-- C3 counterexample: in `compute_summary` the records labelled
"Positive", "POSITIVE" and "positive" do NOT all aggregate into
counts["positive"] — that bucket holds only 1 of the 3 records. -/
theorem c3_counterexample :
    ((compute_summary
        ⟨3, some [some "Positive", some "POSITIVE", some "positive"],
          some [some 0, some 0, some 0]⟩).map fun s => s.counts "positive")
      = Except.ok 1 ∧
    (1 : Nat) ≠ 3 := by
  refine ⟨?_, by decide⟩
  rw [compute_summary_eq_ok _
    [some "Positive", some "POSITIVE", some "positive"] [some 0, some 0, some 0] rfl rfl]
  simp only [Except.map, Except.ok.injEq]
  decide

/-- C4: for every non-empty frame with both columns, each of the three
canonical percentages in the returned Summary is within 0.001 of
`100 * counts[label] / total_records`, where
`total_records = sum(counts.values())` (the first conjunct of each part
identifies that sum with the series length), in both implementations. -/
theorem c4_percentages_from_counts (df : SentimentFrame) (cells : List (Option String))
    (xs : List (Option ℚ)) (h0 : df.nrows ≠ 0) (hl : df.labelCol = some cells)
    (hs : df.scoreCol = some xs) (hne : cells ≠ []) :
    (∑ s in (lowered_labels df).toFinset, (compute_advice_from_df df).counts s
        = (lowered_labels df).length) ∧
    |(compute_advice_from_df df).positive
        - 100 * ((compute_advice_from_df df).counts "positive" : ℚ)
          / ((lowered_labels df).length : ℚ)| ≤ 1/1000 ∧
    |(compute_advice_from_df df).neutral
        - 100 * ((compute_advice_from_df df).counts "neutral" : ℚ)
          / ((lowered_labels df).length : ℚ)| ≤ 1/1000 ∧
    |(compute_advice_from_df df).negative
        - 100 * ((compute_advice_from_df df).counts "negative" : ℚ)
          / ((lowered_labels df).length : ℚ)| ≤ 1/1000 ∧
    ∀ s_out, compute_summary df = Except.ok s_out →
      (∑ s in (cells.filterMap id).toFinset, s_out.counts s
          = (cells.filterMap id).length) ∧
      |s_out.positive - 100 * (s_out.counts "positive" : ℚ)
          / ((cells.filterMap id).length : ℚ)| ≤ 1/1000 ∧
      |s_out.neutral - 100 * (s_out.counts "neutral" : ℚ)
          / ((cells.filterMap id).length : ℚ)| ≤ 1/1000 ∧
      |s_out.negative - 100 * (s_out.counts "negative" : ℚ)
          / ((cells.filterMap id).length : ℚ)| ≤ 1/1000 := by
  have hcounts : ∀ s, (compute_advice_from_df df).counts s = (lowered_labels df).count s := by
    intro s
    simp [compute_advice_from_df, h0]
  have hLpos : 0 < (lowered_labels df).length := by
    simp only [lowered_labels, hl, Option.getD_some, List.length_map]
    exact List.length_pos.mpr hne
  have hpospct : (compute_advice_from_df df).positive
      = pyround3 (canonPct (lowered_labels df) "positive") := by
    simp [compute_advice_from_df, h0]
  have hneupct : (compute_advice_from_df df).neutral
      = pyround3 (canonPct (lowered_labels df) "neutral") := by
    simp [compute_advice_from_df, h0]
  have hnegpct : (compute_advice_from_df df).negative
      = pyround3 (canonPct (lowered_labels df) "negative") := by
    simp [compute_advice_from_df, h0]
  have hformula : ∀ s, canonPct (lowered_labels df) s
      = 100 * ((lowered_labels df).count s : ℚ) / ((lowered_labels df).length : ℚ) := by
    intro s
    rw [canonPct, if_pos hLpos]
    ring
  refine ⟨?_, ?_, ?_, ?_, ?_⟩
  · simp only [hcounts]
    exact sum_toFinset_count_eq_length _
  · rw [hpospct, hcounts, ← hformula]
    exact pyround3_abs_sub_le _
  · rw [hneupct, hcounts, ← hformula]
    exact pyround3_abs_sub_le _
  · rw [hnegpct, hcounts, ← hformula]
    exact pyround3_abs_sub_le _
  · intro s_out hok
    rw [compute_summary_eq_ok df cells xs hl hs, Except.ok.injEq] at hok
    subst hok
    refine ⟨sum_toFinset_count_eq_length _, ?_, ?_, ?_⟩ <;>
      exact canonPct_abs_sub_formula_le _ _

/-- C4 witness: the bound instantiated on a concrete three-row frame. -/
theorem c4_witness :
    |(compute_advice_from_df
        ⟨3, some [some "positive", some "neutral", some "neutral"],
          some [some 1, some 1, some 1]⟩).positive
        - 100 * ((compute_advice_from_df
            ⟨3, some [some "positive", some "neutral", some "neutral"],
              some [some 1, some 1, some 1]⟩).counts "positive" : ℚ)
          / ((lowered_labels
              ⟨3, some [some "positive", some "neutral", some "neutral"],
                some [some 1, some 1, some 1]⟩).length : ℚ)| ≤ 1/1000 :=
  (c4_percentages_from_counts
      ⟨3, some [some "positive", some "neutral", some "neutral"],
        some [some 1, some 1, some 1]⟩
      [some "positive", some "neutral", some "neutral"] [some 1, some 1, some 1]
      (by decide) rfl rfl (by decide)).2.1

/-- C5 (amended): `compute_advice_from_df` rounds the three canonical
percentages to exactly 3 decimal digits (`pyround3` of the exact value)
and leaves `avg_sentiment` unrounded; `compute_summary` leaves both the
percentages and `avg_sentiment` unrounded. -/
theorem c5_rounding_per_function (df : SentimentFrame) (cells : List (Option String))
    (xs : List (Option ℚ)) (h0 : df.nrows ≠ 0) (hl : df.labelCol = some cells)
    (hs : df.scoreCol = some xs) :
    (compute_advice_from_df df).positive = pyround3 (canonPct (lowered_labels df) "positive") ∧
    (compute_advice_from_df df).neutral = pyround3 (canonPct (lowered_labels df) "neutral") ∧
    (compute_advice_from_df df).negative = pyround3 (canonPct (lowered_labels df) "negative") ∧
    (compute_advice_from_df df).avg_sentiment = seriesMean xs ∧
    ((compute_summary df).map Summary.positive
      = Except.ok (canonPct (cells.filterMap id) "positive")) ∧
    ((compute_summary df).map Summary.neutral
      = Except.ok (canonPct (cells.filterMap id) "neutral")) ∧
    ((compute_summary df).map Summary.negative
      = Except.ok (canonPct (cells.filterMap id) "negative")) ∧
    ((compute_summary df).map Summary.avg_sentiment = Except.ok (seriesMean xs)) := by
  have hn : 0 < df.nrows := Nat.pos_of_ne_zero h0
  have hok := compute_summary_eq_ok df cells xs hl hs
  refine ⟨by simp [compute_advice_from_df, h0], by simp [compute_advice_from_df, h0],
    by simp [compute_advice_from_df, h0], by simp [compute_advice_from_df, h0, hs, hn],
    by simp [hok, Except.map], by simp [hok, Except.map], by simp [hok, Except.map],
    by simp [hok, Except.map, hn]⟩

/-- C5 witness: the rounded-percentage equation on a concrete frame. -/
theorem c5_witness :
    (compute_advice_from_df
        ⟨3, some [some "positive", some "neutral", some "neutral"],
          some [some 0, some 0, some 0]⟩).positive
      = pyround3 (canonPct (lowered_labels
          ⟨3, some [some "positive", some "neutral", some "neutral"],
            some [some 0, some 0, some 0]⟩) "positive") :=
  (c5_rounding_per_function
      ⟨3, some [some "positive", some "neutral", some "neutral"],
        some [some 0, some 0, some 0]⟩
      [some "positive", some "neutral", some "neutral"] [some 0, some 0, some 0]
      (by decide) rfl rfl).1

/-- C5 counterexample: on a frame with one positive record of three,
`compute_summary` returns positive = 100/3 exactly, which is not a
3-decimal value (rounding it would give 33.333), so the claim that both
implementations round to exactly 3 decimals is false. -/
theorem c5_counterexample :
    ((compute_summary
        ⟨3, some [some "positive", some "neutral", some "neutral"],
          some [some 0, some 0, some 0]⟩).map Summary.positive)
      = Except.ok (100/3) ∧
    pyround3 (100/3) = 33333/1000 ∧
    (100/3 : ℚ) ≠ 33333/1000 := by
  have hf : (([some "positive", some "neutral", some "neutral"]
      : List (Option String)).filterMap id) = ["positive", "neutral", "neutral"] := by decide
  have hc : List.count "positive" ["positive", "neutral", "neutral"] = 1 := by decide
  refine ⟨?_, ?_, by norm_num⟩
  · rw [compute_summary_eq_ok _
      [some "positive", some "neutral", some "neutral"] [some 0, some 0, some 0] rfl rfl]
    simp only [Except.map, Except.ok.injEq]
    rw [hf]
    norm_num [canonPct, hc]
  · simp only [pyround3, rat_floor_eq_intFloor]
    norm_num

/-- C7: in `compute_advice_from_df`, labels outside the canonical three
are retained verbatim (lower-cased) as counts keys with their own counts
(never merged into a canonical bucket), and the three named percentages
take their numerators from the canonical keys only while every record —
unknown labels included — appears in the denominator `cells.length`. -/
theorem c7_unknown_labels_dilute (df : SentimentFrame) (cells : List (Option String))
    (h0 : df.nrows ≠ 0) (hl : df.labelCol = some cells) (hne : cells ≠ []) :
    (∀ s, (compute_advice_from_df df).counts s = (lowered_labels df).count s) ∧
    (compute_advice_from_df df).positive
      = pyround3 (100 * ((lowered_labels df).count "positive" : ℚ) / (cells.length : ℚ)) ∧
    (compute_advice_from_df df).neutral
      = pyround3 (100 * ((lowered_labels df).count "neutral" : ℚ) / (cells.length : ℚ)) ∧
    (compute_advice_from_df df).negative
      = pyround3 (100 * ((lowered_labels df).count "negative" : ℚ) / (cells.length : ℚ)) ∧
    (compute_advice_from_df
        ⟨2, some [some "positive", some "Bullish"], some [some 0, some 0]⟩).counts
      "bullish" = 1 ∧
    (compute_advice_from_df
        ⟨2, some [some "positive", some "Bullish"], some [some 0, some 0]⟩).positive = 50 := by
  have hLlen : (lowered_labels df).length = cells.length := by
    simp [lowered_labels, hl]
  have hLpos : 0 < (lowered_labels df).length := by
    rw [hLlen]
    exact List.length_pos.mpr hne
  have hformula : ∀ s, canonPct (lowered_labels df) s
      = 100 * ((lowered_labels df).count s : ℚ) / (cells.length : ℚ) := by
    intro s
    rw [canonPct, if_pos hLpos, hLlen]
    ring
  have hl2 : lowered_labels ⟨2, some [some "positive", some "Bullish"], some [some 0, some 0]⟩
      = ["positive", "bullish"] := by decide
  have hc : List.count "positive" ["positive", "bullish"] = 1 := by decide
  refine ⟨?_, ?_, ?_, ?_, by decide, ?_⟩
  · intro s
    simp [compute_advice_from_df, h0]
  · rw [← hformula]
    simp [compute_advice_from_df, h0]
  · rw [← hformula]
    simp [compute_advice_from_df, h0]
  · rw [← hformula]
    simp [compute_advice_from_df, h0]
  · norm_num [compute_advice_from_df, hl2, hc, canonPct, pyround3, rat_floor_eq_intFloor]

/-- C7 witness: the unknown label "Bullish" is kept under the key
"bullish". -/
theorem c7_witness :
    (compute_advice_from_df
        ⟨2, some [some "positive", some "Bullish"], some [some 0, some 0]⟩).counts
      "bullish" = 1 :=
  (c7_unknown_labels_dilute
      ⟨2, some [some "positive", some "Bullish"], some [some 0, some 0]⟩
      [some "positive", some "Bullish"] (by decide) rfl (by decide)).2.2.2.2.1

/-- The decision tree always returns one of its four fixed strings. -/
theorem decide_advice_cases (p n g : ℚ) :
    decide_advice p n g = "GOOD TIME TO BUY STOCKS" ∨
    decide_advice p n g = "NORMAL DAY TO DO TRANSACTIONS" ∨
    decide_advice p n g = "NOT GOOD TO INVEST" ∨
    decide_advice p n g = "MIXED SIGNALS — USE CAUTION" := by
  unfold decide_advice
  split_ifs <;> simp

/-- C10: in `compute_advice_from_df` a record with a missing (NaN)
`sentiment_label` is not dropped: `.astype(str)` turns it into the literal
string "nan", so it is counted under counts["nan"], appears in the
percentage denominator (total records), and thereby dilutes the canonical
percentages — on the concrete two-row frame with one missing label the
positive share is 50, not 100. -/
theorem c10_missing_label_counted_as_nan (df : SentimentFrame)
    (cells : List (Option String)) (h0 : df.nrows ≠ 0) (hl : df.labelCol = some cells)
    (hmem : none ∈ cells) :
    1 ≤ (compute_advice_from_df df).counts "nan" ∧
    (∀ s, (compute_advice_from_df df).counts s = (lowered_labels df).count s) ∧
    (lowered_labels df).length = cells.length ∧
    (compute_advice_from_df df).positive
      = pyround3 (100 * ((lowered_labels df).count "positive" : ℚ) / (cells.length : ℚ)) ∧
    (compute_advice_from_df
        ⟨2, some [none, some "Positive"], some [some 1, none]⟩).counts "nan" = 1 ∧
    (compute_advice_from_df
        ⟨2, some [none, some "Positive"], some [some 1, none]⟩).positive = 50 := by
  have hne : cells ≠ [] := List.ne_nil_of_mem hmem
  have hLlen : (lowered_labels df).length = cells.length := by
    simp [lowered_labels, hl]
  have hLpos : 0 < (lowered_labels df).length := by
    rw [hLlen]
    exact List.length_pos.mpr hne
  have hnan : "nan" ∈ lowered_labels df := by
    rw [lowered_labels, hl]
    exact List.mem_map.mpr ⟨none, hmem, by decide⟩
  have hcounts : ∀ s, (compute_advice_from_df df).counts s = (lowered_labels df).count s := by
    intro s
    simp [compute_advice_from_df, h0]
  have hl2 : lowered_labels ⟨2, some [none, some "Positive"], some [some 1, none]⟩
      = ["nan", "positive"] := by decide
  have hc : List.count "positive" ["nan", "positive"] = 1 := by decide
  refine ⟨?_, hcounts, hLlen, ?_, by decide, ?_⟩
  · rw [hcounts]
    exact List.count_pos_iff.mpr hnan
  · have hformula : canonPct (lowered_labels df) "positive"
        = 100 * ((lowered_labels df).count "positive" : ℚ) / (cells.length : ℚ) := by
      rw [canonPct, if_pos hLpos, hLlen]
      ring
    rw [← hformula]
    simp [compute_advice_from_df, h0]
  · norm_num [compute_advice_from_df, hl2, hc, canonPct, pyround3, rat_floor_eq_intFloor]

/-- C10 witness: the missing-label record of the concrete frame is
counted under the key "nan". -/
theorem c10_witness :
    1 ≤ (compute_advice_from_df
        ⟨2, some [none, some "Positive"], some [some 1, none]⟩).counts "nan" :=
  (c10_missing_label_counted_as_nan
      ⟨2, some [none, some "Positive"], some [some 1, none]⟩
      [none, some "Positive"] (by decide) rfl (by decide)).1

/-- A numeric column viewed as raw cells holds no non-numeric cell. -/
theorem any_isNonNumeric_cellOfOpt (xs : List (Option ℚ)) :
    (xs.map cellOfOpt).any ScoreCell.isNonNumeric = false := by
  induction xs with
  | nil => rfl
  | cons x xs ih => cases x <;> simp [cellOfOpt, ScoreCell.isNonNumeric, ih]

/-- The numeric values of a numeric column viewed as raw cells are its
present values. -/
theorem filterMap_toRat_cellOfOpt (xs : List (Option ℚ)) :
    (xs.map cellOfOpt).filterMap ScoreCell.toRat = xs.filterMap id := by
  induction xs with
  | nil => rfl
  | cons x xs ih => cases x <;> simp [cellOfOpt, ScoreCell.toRat, ih]

/-- On a numeric score column, the raw mean never raises and agrees with
the skipna mean `seriesMean`. -/
theorem rawSeriesMean_numeric (xs : List (Option ℚ)) :
    rawSeriesMean (xs.map cellOfOpt) = Except.ok (seriesMean xs) := by
  rw [rawSeriesMean, seriesMean, any_isNonNumeric_cellOfOpt, filterMap_toRat_cellOfOpt]
  simp only [Bool.false_eq_true, if_false]
  by_cases h : (xs.filterMap id).length = 0 <;> simp [h]

/-- Raw mean of a column with no non-numeric cell and at least one numeric
value: the skipna arithmetic mean. -/
theorem rawSeriesMean_eq_mean (xs : List ScoreCell)
    (hnum : xs.any ScoreCell.isNonNumeric = false)
    (hne : xs.filterMap ScoreCell.toRat ≠ []) :
    rawSeriesMean xs = Except.ok (some ((xs.filterMap ScoreCell.toRat).sum
      / ((xs.filterMap ScoreCell.toRat).length : ℚ))) := by
  rw [rawSeriesMean]
  have hlen : (xs.filterMap ScoreCell.toRat).length ≠ 0 := by
    simpa [List.length_eq_zero] using hne
  simp [hnum, hlen]

/-- Raw mean of a column with no non-numeric cell and no numeric value:
NaN. -/
theorem rawSeriesMean_eq_nan (xs : List ScoreCell)
    (hnum : xs.any ScoreCell.isNonNumeric = false)
    (he : xs.filterMap ScoreCell.toRat = []) :
    rawSeriesMean xs = Except.ok none := by
  rw [rawSeriesMean]
  simp [hnum, he]

/-- Raw mean of a column holding a non-numeric cell: TypeError. -/
theorem rawSeriesMean_error_of_nonNumeric (xs : List ScoreCell)
    (h : xs.any ScoreCell.isNonNumeric = true) :
    rawSeriesMean xs = Except.error "TypeError: Could not convert string to numeric" := by
  rw [rawSeriesMean]
  simp [h]

/-- The raw and numeric models of `compute_advice_from_df` agree on every
frame whose score cells are numeric or missing. -/
theorem compute_advice_from_raw_numeric (df : SentimentFrame) :
    compute_advice_from_raw (toRawFrame df) = Except.ok (compute_advice_from_df df) := by
  by_cases hz : df.nrows = 0
  · simp [compute_advice_from_raw, compute_advice_from_df, toRawFrame, hz]
  · cases hsc : df.scoreCol with
    | none =>
      simp [compute_advice_from_raw, compute_advice_from_df, toRawFrame, lowered_labels,
        hz, hsc, Except.map]
    | some xs =>
      simp [compute_advice_from_raw, compute_advice_from_df, toRawFrame, lowered_labels,
        hz, hsc, rawSeriesMean_numeric, Except.map, Nat.pos_of_ne_zero hz]

/-- The raw and numeric models of `compute_summary` agree on every frame
whose score cells are numeric or missing. -/
theorem compute_summary_raw_numeric (df : SentimentFrame) :
    compute_summary_raw (toRawFrame df) = compute_summary df := by
  cases hl : df.labelCol with
  | none => simp [compute_summary_raw, compute_summary, toRawFrame, hl]
  | some cells =>
    cases hsc : df.scoreCol with
    | none =>
      by_cases hz : df.nrows = 0
      · simp [compute_summary_raw, compute_summary, toRawFrame, hl, hsc, hz, Except.map]
      · simp [compute_summary_raw, compute_summary, toRawFrame, hl, hsc, hz,
          Nat.pos_of_ne_zero hz, Except.map]
    | some xs =>
      by_cases hz : df.nrows = 0
      · simp [compute_summary_raw, compute_summary, toRawFrame, hl, hsc, hz, Except.map]
      · simp [compute_summary_raw, compute_summary, toRawFrame, hl, hsc, hz,
          rawSeriesMean_numeric, Except.map, Nat.pos_of_ne_zero hz]

/-- C6 (amended): `avg_sentiment` is the pandas skipna mean of the score
column, computed independently of the labels: missing (NaN) scores are
excluded from numerator and denominator; it is 0.0 when there are no rows
or the score column is absent; when the column is present and every value
is missing the mean is NaN (`none`), not 0.0; and a non-numeric score
value is not excluded — `Series.mean()` raises TypeError, which aborts the
call. -/
theorem c6_avg_is_skipna_mean (df : RawSentimentFrame) (xs : List ScoreCell)
    (lbl : Option (List (Option String))) :
    (df.nrows = 0 →
      (compute_advice_from_raw df).map Summary.avg_sentiment = Except.ok (some 0)) ∧
    (df.scoreCol = none →
      (compute_advice_from_raw df).map Summary.avg_sentiment = Except.ok (some 0)) ∧
    (df.nrows ≠ 0 → df.scoreCol = some xs → xs.any ScoreCell.isNonNumeric = false →
      xs.filterMap ScoreCell.toRat ≠ [] →
      (compute_advice_from_raw df).map Summary.avg_sentiment
        = Except.ok (some ((xs.filterMap ScoreCell.toRat).sum
            / ((xs.filterMap ScoreCell.toRat).length : ℚ)))) ∧
    (df.nrows ≠ 0 → df.scoreCol = some xs → xs.any ScoreCell.isNonNumeric = false →
      xs.filterMap ScoreCell.toRat = [] →
      (compute_advice_from_raw df).map Summary.avg_sentiment = Except.ok none) ∧
    (df.nrows ≠ 0 → df.scoreCol = some xs → xs.any ScoreCell.isNonNumeric = true →
      compute_advice_from_raw df
        = Except.error "TypeError: Could not convert string to numeric") ∧
    (compute_advice_from_raw ⟨df.nrows, lbl, df.scoreCol⟩).map Summary.avg_sentiment
      = (compute_advice_from_raw df).map Summary.avg_sentiment := by
  refine ⟨?_, ?_, ?_, ?_, ?_, ?_⟩
  · intro h
    simp [compute_advice_from_raw, h, noDataSummary, Except.map]
  · intro h
    by_cases hz : df.nrows = 0 <;>
      simp [compute_advice_from_raw, h, hz, noDataSummary, Except.map]
  · intro h0 hsc hnum hne
    simp [compute_advice_from_raw, h0, hsc, Nat.pos_of_ne_zero h0,
      rawSeriesMean_eq_mean xs hnum hne, Except.map]
  · intro h0 hsc hnum he
    simp [compute_advice_from_raw, h0, hsc, Nat.pos_of_ne_zero h0,
      rawSeriesMean_eq_nan xs hnum he, Except.map]
  · intro h0 hsc hnum
    simp [compute_advice_from_raw, h0, hsc, Nat.pos_of_ne_zero h0,
      rawSeriesMean_error_of_nonNumeric xs hnum, Except.map]
  · by_cases hz : df.nrows = 0
    · simp [compute_advice_from_raw, hz]
    · cases hsc : df.scoreCol with
      | none => simp [compute_advice_from_raw, hz, hsc, Except.map]
      | some ys =>
        rcases hm : rawSeriesMean ys with e | v <;>
          simp [compute_advice_from_raw, hz, hsc, Nat.pos_of_ne_zero hz, hm, Except.map]

/-- C6 witness: the skipna mean on a concrete frame with one numeric and
one missing score. -/
theorem c6_witness :
    (compute_advice_from_raw ⟨2, some [some "positive", none],
        some [ScoreCell.num 2, ScoreCell.na]⟩).map Summary.avg_sentiment
      = Except.ok (some ((([ScoreCell.num 2, ScoreCell.na].filterMap ScoreCell.toRat).sum
          / (([ScoreCell.num 2, ScoreCell.na].filterMap ScoreCell.toRat).length : ℚ)))) :=
  (c6_avg_is_skipna_mean ⟨2, some [some "positive", none],
      some [ScoreCell.num 2, ScoreCell.na]⟩ [ScoreCell.num 2, ScoreCell.na] none).2.2.1
    (by decide) rfl (by decide) (by decide)

/-- C6 counterexample: with the score column present but every value
missing, `avg_sentiment` is NaN (`none`), not the claimed 0.0; a
non-numeric score value is not "excluded from the mean" — the mean raises
TypeError; and `compute_summary` raises KeyError instead of returning 0.0
when the score column is absent from a non-empty frame. -/
theorem c6_counterexample :
    (compute_advice_from_raw ⟨1, some [some "positive"], some [ScoreCell.na]⟩).map
        Summary.avg_sentiment = Except.ok none ∧
    (Except.ok (none : Option ℚ) : Except String (Option ℚ)) ≠ Except.ok (some 0) ∧
    compute_advice_from_raw ⟨1, some [some "positive"], some [ScoreCell.nonNumeric "n/a"]⟩
      = Except.error "TypeError: Could not convert string to numeric" ∧
    compute_summary_raw ⟨1, some [some "positive"], none⟩
      = Except.error "KeyError: sentiment_score" := by
  refine ⟨?_, by simp, ?_, ?_⟩
  · simp [compute_advice_from_raw, rawSeriesMean, ScoreCell.isNonNumeric,
      ScoreCell.toRat, Except.map]
  · simp [compute_advice_from_raw, rawSeriesMean, ScoreCell.isNonNumeric, Except.map]
  · simp [compute_summary_raw]

/-- The raw mean raises no exception when no cell is non-numeric. -/
theorem rawSeriesMean_ok_of_numericOnly (xs : List ScoreCell)
    (h : xs.any ScoreCell.isNonNumeric = false) :
    ∃ v, rawSeriesMean xs = Except.ok v := by
  rw [rawSeriesMean]
  simp only [h, Bool.false_eq_true, if_false]
  split_ifs <;> exact ⟨_, rfl⟩

/-- C8 (amended): `decide_advice` always returns one of the four fixed
strings and `compute_advice_from_df` always produces a Summary whose
advice is among the five fixed strings; no exception leaves
`compute_advice_from_df` on any frame whose score cells are numeric or
missing — arbitrary labels, missing label column, missing score column or
missing cells included — but a non-numeric score cell in a non-empty frame
makes the mean at line 51 raise TypeError; `compute_summary` additionally
raises KeyError when `sentiment_label` is absent, or when
`sentiment_score` is absent from a non-empty frame, and raises the same
TypeError on a non-numeric score. -/
theorem c8_totality (df : RawSentimentFrame) (cells : List (Option String))
    (xs : List ScoreCell) (p n g : ℚ) :
    (decide_advice p n g = "GOOD TIME TO BUY STOCKS" ∨
      decide_advice p n g = "NORMAL DAY TO DO TRANSACTIONS" ∨
      decide_advice p n g = "NOT GOOD TO INVEST" ∨
      decide_advice p n g = "MIXED SIGNALS — USE CAUTION") ∧
    (∀ s_out, compute_advice_from_raw df = Except.ok s_out →
      s_out.advice = "NO DATA" ∨ s_out.advice = "GOOD TIME TO BUY STOCKS" ∨
      s_out.advice = "NORMAL DAY TO DO TRANSACTIONS" ∨
      s_out.advice = "NOT GOOD TO INVEST" ∨
      s_out.advice = "MIXED SIGNALS — USE CAUTION") ∧
    (df.scoreCol = none → ∃ s, compute_advice_from_raw df = Except.ok s) ∧
    (df.scoreCol = some xs → xs.any ScoreCell.isNonNumeric = false →
      ∃ s, compute_advice_from_raw df = Except.ok s) ∧
    (df.nrows ≠ 0 → df.scoreCol = some xs → xs.any ScoreCell.isNonNumeric = true →
      compute_advice_from_raw df
        = Except.error "TypeError: Could not convert string to numeric") ∧
    (df.labelCol = some cells → df.scoreCol = some xs →
      xs.any ScoreCell.isNonNumeric = false →
      ∃ s, compute_summary_raw df = Except.ok s) ∧
    (df.labelCol = none →
      compute_summary_raw df = Except.error "KeyError: sentiment_label") ∧
    (df.nrows ≠ 0 → df.labelCol = some cells → df.scoreCol = none →
      compute_summary_raw df = Except.error "KeyError: sentiment_score") ∧
    (df.nrows ≠ 0 → df.labelCol = some cells → df.scoreCol = some xs →
      xs.any ScoreCell.isNonNumeric = true →
      compute_summary_raw df
        = Except.error "TypeError: Could not convert string to numeric") := by
  refine ⟨decide_advice_cases p n g, ?_, ?_, ?_, ?_, ?_, ?_, ?_, ?_⟩
  · intro s_out hok
    by_cases hz : df.nrows = 0
    · simp [compute_advice_from_raw, hz] at hok
      subst hok
      left
      rfl
    · cases hsc : df.scoreCol with
      | none =>
        simp [compute_advice_from_raw, hz, hsc, Except.map] at hok
        subst hok
        exact Or.inr (decide_advice_cases _ _ _)
      | some ys =>
        rcases hm : rawSeriesMean ys with e | v <;>
          simp [compute_advice_from_raw, hz, hsc, Nat.pos_of_ne_zero hz, hm,
            Except.map] at hok
        subst hok
        exact Or.inr (decide_advice_cases _ _ _)
  · intro h
    rcases hok : compute_advice_from_raw df with e | s
    · exfalso
      by_cases hz : df.nrows = 0
      · simp [compute_advice_from_raw, hz] at hok
      · simp [compute_advice_from_raw, hz, h, Except.map] at hok
    · exact ⟨s, rfl⟩
  · intro hsc hnum
    rcases hok : compute_advice_from_raw df with e | s
    · exfalso
      obtain ⟨v, hv⟩ := rawSeriesMean_ok_of_numericOnly xs hnum
      by_cases hz : df.nrows = 0
      · simp [compute_advice_from_raw, hz] at hok
      · simp [compute_advice_from_raw, hz, hsc, Nat.pos_of_ne_zero hz, hv,
          Except.map] at hok
    · exact ⟨s, rfl⟩
  · intro h0 hsc hnum
    simp [compute_advice_from_raw, h0, hsc, Nat.pos_of_ne_zero h0,
      rawSeriesMean_error_of_nonNumeric xs hnum, Except.map]
  · intro hl hsc hnum
    rcases hok : compute_summary_raw df with e | s
    · exfalso
      obtain ⟨v, hv⟩ := rawSeriesMean_ok_of_numericOnly xs hnum
      by_cases hz : df.nrows = 0
      · simp [compute_summary_raw, hl, hsc, hz, Except.map] at hok
      · simp [compute_summary_raw, hl, hsc, hz, Nat.pos_of_ne_zero hz, hv,
          Except.map] at hok
    · exact ⟨s, rfl⟩
  · intro h
    simp [compute_summary_raw, h]
  · intro h0 hl hsc
    simp [compute_summary_raw, hl, hsc, Nat.pos_of_ne_zero h0]
  · intro h0 hl hsc hnum
    simp [compute_summary_raw, hl, hsc, Nat.pos_of_ne_zero h0,
      rawSeriesMean_error_of_nonNumeric xs hnum, Except.map]

/-- C8 witness: `compute_summary` succeeds on a well-formed one-row
frame. -/
theorem c8_witness :
    ∃ s, compute_summary_raw ⟨1, some [some "positive"], some [ScoreCell.num 1]⟩
      = Except.ok s :=
  (c8_totality ⟨1, some [some "positive"], some [ScoreCell.num 1]⟩ [some "positive"]
      [ScoreCell.num 1] 0 0 0).2.2.2.2.2.1 rfl rfl (by decide)

/-- C8 counterexample: exceptions do propagate on documented input
shapes — KeyError for a frame whose records lack `sentiment_label`,
KeyError for a non-empty frame whose records lack `sentiment_score`, and
TypeError from `compute_advice_from_df` itself for a non-numeric score
value — so neither aggregation function is total over the documented
domain. -/
theorem c8_counterexample :
    compute_summary_raw ⟨1, none, some [ScoreCell.num 1]⟩
      = Except.error "KeyError: sentiment_label" ∧
    compute_summary_raw ⟨1, some [some "positive"], none⟩
      = Except.error "KeyError: sentiment_score" ∧
    compute_advice_from_raw ⟨1, some [some "positive"], some [ScoreCell.nonNumeric "bad"]⟩
      = Except.error "TypeError: Could not convert string to numeric" := by
  refine ⟨by simp [compute_summary_raw], by simp [compute_summary_raw], ?_⟩
  simp [compute_advice_from_raw, rawSeriesMean, ScoreCell.isNonNumeric, Except.map]
